import Mathlib

/-!
Verification development for the Room-scanner-lublin repository
(`olx_room_monitor.py`).  The Python source is shallowly embedded:

* `RoomOffer`, `save_offer`, `mark_inactive_offers`, `get_all_offers`
  model the `RoomOffer` dataclass and `DatabaseManager`; the SQLite
  table keyed by `offer_id` becomes a list of records, `SELECT ... WHERE
  offer_id = ?` with `fetchone` becomes `List.find?`, and an SQL
  `UPDATE ... WHERE` becomes a `List.map` that rewrites affected rows.
* The address-pattern cascade of `ImprovedOLXMonitor.address_patterns`
  together with `_extract_address_IMPROVED` is embedded as an explicit
  backtracking matcher for the four regular expressions, including the
  `re.IGNORECASE` flag (which makes the character classes accept both
  cases), the lazy street-name group, the greedy number/letter/unit
  groups, and the non-overlapping `finditer` scan order.
* `ImprovedGeocoder.geocode` is embedded with the network as an
  explicit environment `String -> Except Unit (List (ℚ × ℚ))` mapping a
  query string to either a transport error (a raised exception in the
  source, caught by the `except` clause) or the list of candidate
  coordinates from the response body.  Floating point coordinates are
  modelled by rationals; the bounding-box comparisons of the source are
  exact decimal comparisons, so nothing is lost.  The returned `Nat`
  counts issued network queries.
* `_process_offer_CONTENT` and `run_monitoring` are embedded with the
  page fetch as an environment `String -> Except Unit Page` (an `.error`
  models any exception raised while fetching/parsing one offer page,
  which the source catches per offer), and the MD5 digest as a function
  parameter `md5hex : String → String`.  HTML selector plumbing,
  `time.sleep`, logging, `folium` map generation and the
  `_collect_ALL_offers` paginator are outside the embedded core; the
  scraped offer list is the input of `run_monitoring`.
-/

/-! ## Character helpers (Python `str` semantics for the used alphabet) -/

/-- Uppercase Polish diacritic letters appearing in the source regexes. -/
def polishUpperChars : List Char := ['Ą', 'Ć', 'Ę', 'Ł', 'Ń', 'Ó', 'Ś', 'Ź', 'Ż']

/-- Lowercase Polish diacritic letters appearing in the source regexes. -/
def polishLowerChars : List Char := ['ą', 'ć', 'ę', 'ł', 'ń', 'ó', 'ś', 'ź', 'ż']

def isAsciiUpperCh (c : Char) : Bool := decide (65 ≤ c.toNat) && decide (c.toNat ≤ 90)

def isAsciiLowerCh (c : Char) : Bool := decide (97 ≤ c.toNat) && decide (c.toNat ≤ 122)

def isAsciiLetterCh (c : Char) : Bool := isAsciiUpperCh c || isAsciiLowerCh c

def isPolishUpperCh (c : Char) : Bool := polishUpperChars.contains c

def isPolishLowerCh (c : Char) : Bool := polishLowerChars.contains c

/-- A letter of the local alphabet: ASCII or Polish diacritic, either case. -/
def isLetterPl (c : Char) : Bool :=
  isAsciiUpperCh c || isAsciiLowerCh c || isPolishUpperCh c || isPolishLowerCh c

def isUpperPl (c : Char) : Bool := isAsciiUpperCh c || isPolishUpperCh c

/-- Python `\s` on the characters that can occur here. -/
def isSpaceCh (c : Char) : Bool :=
  c == ' ' || c == '\t' || c == '\n' || c == '\r' || c == '\x0b' || c == '\x0c'

def isDigitCh (c : Char) : Bool := decide (48 ≤ c.toNat) && decide (c.toNat ≤ 57)

/-- Python `str.lower` restricted to the alphabet used by the program
(ASCII plus the nine Polish diacritic pairs); other characters unchanged. -/
def toLowerPlChar (c : Char) : Char :=
  if isAsciiUpperCh c then Char.ofNat (c.toNat + 32)
  else if c == 'Ą' then 'ą' else if c == 'Ć' then 'ć' else if c == 'Ę' then 'ę'
  else if c == 'Ł' then 'ł' else if c == 'Ń' then 'ń' else if c == 'Ó' then 'ó'
  else if c == 'Ś' then 'ś' else if c == 'Ź' then 'ź' else if c == 'Ż' then 'ż'
  else c

/-- Python `str.upper` restricted to the same alphabet. -/
def toUpperPlChar (c : Char) : Char :=
  if isAsciiLowerCh c then Char.ofNat (c.toNat - 32)
  else if c == 'ą' then 'Ą' else if c == 'ć' then 'Ć' else if c == 'ę' then 'Ę'
  else if c == 'ł' then 'Ł' else if c == 'ń' then 'Ń' else if c == 'ó' then 'Ó'
  else if c == 'ś' then 'Ś' else if c == 'ź' then 'Ź' else if c == 'ż' then 'Ż'
  else c

/-- Python `str.lower`. -/
def pyLower (s : String) : String := String.mk (s.data.map toLowerPlChar)

/-- Python `str.strip` (default whitespace stripping at both ends). -/
def pyStrip (s : String) : String :=
  String.mk (((s.data.dropWhile isSpaceCh).reverse.dropWhile isSpaceCh).reverse)

/-- One step of Python `str.title`: uppercase a letter whose predecessor is
not a letter, lowercase a letter whose predecessor is a letter. -/
def pyTitleAux : Bool → List Char → List Char
  | _, [] => []
  | prevAlpha, c :: r =>
    (if isLetterPl c then (if prevAlpha then toLowerPlChar c else toUpperPlChar c) else c)
      :: pyTitleAux (isLetterPl c) r

/-- Python `str.title` on the alphabet used by the program. -/
def pyTitle (s : String) : String := String.mk (pyTitleAux false s.data)

/-- Python slicing `s[:n]` (by code points). -/
def pyTake (n : Nat) (s : String) : String := String.mk (s.data.take n)

/-- Python `int` on a run of ASCII digits. -/
def digitsToNat (cs : List Char) : Nat := cs.foldl (fun n c => n * 10 + (c.toNat - 48)) 0

/-! ## Data model: `RoomOffer` and the offers table

The `offers` table of `DatabaseManager.init_database` is a list of rows;
`latitude`/`longitude` are nullable columns (`REAL`), hence `Option ℚ`.
`is_active` is the `INTEGER DEFAULT 1` column read back as a boolean. -/

structure RoomOffer where
  offer_id : String
  title : String
  price : String
  price_numeric : Int
  url : String
  description : String
  street_name : String
  building_number : String
  apartment_number : Option String
  full_address : String
  latitude : Option ℚ
  longitude : Option ℚ
  first_seen : String
  last_seen : String
  is_active : Bool
  hash : String
deriving DecidableEq, Repr

/-- Classification returned by `DatabaseManager.save_offer`. -/
inductive SaveResult
  | new
  | updated
  | unchanged
deriving DecidableEq, Repr

/-- The `UPDATE offers SET title=?, price=?, price_numeric=?, description=?,
last_seen=?, is_active=1, hash=? WHERE offer_id=?` row rewrite of
`save_offer`. -/
def overwriteMutable (offer : RoomOffer) (row : RoomOffer) : RoomOffer :=
  if row.offer_id == offer.offer_id then
    { row with
      title := offer.title, price := offer.price, price_numeric := offer.price_numeric,
      description := offer.description, last_seen := offer.last_seen,
      is_active := true, hash := offer.hash }
  else row

/-- The `UPDATE offers SET last_seen=? WHERE offer_id=?` row rewrite of
`save_offer`. -/
def touchLastSeen (offer : RoomOffer) (row : RoomOffer) : RoomOffer :=
  if row.offer_id == offer.offer_id then { row with last_seen := offer.last_seen } else row

/-- `DatabaseManager.save_offer`: look up the row with the incoming id
(`SELECT hash, is_active, first_seen ... fetchone`); if present and the
stored hash differs or the row is inactive, rewrite the mutable columns
and reactivate; if present and unchanged, only advance `last_seen`;
if absent, insert the full record with `is_active = 1`. -/
def save_offer (store : List RoomOffer) (offer : RoomOffer) :
    List RoomOffer × SaveResult :=
  match store.find? (fun r => r.offer_id == offer.offer_id) with
  | some r =>
    if r.hash ≠ offer.hash ∨ r.is_active = false then
      (store.map (overwriteMutable offer), .updated)
    else
      (store.map (touchLastSeen offer), .unchanged)
  | none => (store ++ [{ offer with is_active := true }], .new)

/-- `DatabaseManager.mark_inactive_offers`: with a nonempty id set the SQL is
`UPDATE offers SET is_active=0, last_seen=? WHERE offer_id NOT IN (...) AND
is_active=1`; with an empty set it is `... WHERE is_active=1`. -/
def mark_inactive_offers (store : List RoomOffer) (active_ids : List String)
    (timestamp : String) : List RoomOffer :=
  if active_ids ≠ [] then
    store.map (fun r =>
      if r.is_active && !(active_ids.contains r.offer_id) then
        { r with is_active := false, last_seen := timestamp }
      else r)
  else
    store.map (fun r =>
      if r.is_active then { r with is_active := false, last_seen := timestamp } else r)

/-- `DatabaseManager.get_all_offers`: `SELECT * FROM offers WHERE latitude IS
NOT NULL` (the per-row `days_active` derivation is presentation only and not
part of any claim). -/
def get_all_offers (store : List RoomOffer) : List RoomOffer :=
  store.filter (fun r => r.latitude.isSome)

/-! ## Address extraction: `ImprovedOLXMonitor.address_patterns` and
`_extract_address_IMPROVED`

The four regexes are applied with `re.IGNORECASE`, so the nominally
uppercase first character class `[A-ZĄĆĘŁŃÓŚŹŻ]` and the nominally
lowercase tail class `[a-ząćęłńóśźż\s]` both accept letters of either
case.  `streetHeadClass`/`streetTailClass` are those classes after
case folding. -/

/-- First character class of the street-name group (under `IGNORECASE`). -/
def streetHeadClass (c : Char) : Bool := isLetterPl c

/-- Tail character class of the street-name group (under `IGNORECASE`). -/
def streetTailClass (c : Char) : Bool := isLetterPl c || isSpaceCh c

/-- Separator class `[\/\-\s]` before an optional unit number. -/
def isSepCh (c : Char) : Bool := c == '/' || c == '-' || isSpaceCh c

/-- Case-insensitive comparison of a character with a lowercase target. -/
def ciEq (c target : Char) : Bool := c == target || c == toUpperPlChar target

/-- One raw (pre-validation) match of an address pattern: the captured
groups `(street)(number)(letter)(unit?)`. -/
structure RawMatch where
  street : String
  num : String
  letter : String
  apt : Option String
deriving DecidableEq, Repr

/-- Result of matching the part after the street group:
`\s+(\d+)([a-zA-Z]?)(?:[\/\-\s]*(\d+))?` plus, for the bare pattern, the
lookahead; `rest` is the unconsumed remainder after the whole match. -/
structure TailRes where
  num : String
  letter : String
  apt : Option String
  rest : List Char
deriving DecidableEq, Repr

/-- The optional unit group `(?:[\/\-\s]*(\d+))?`: a greedy run of
separators followed by a required digit run.  Because the separator class
and the digit class are disjoint, the greedy run needs no backtracking. -/
def matchUnit (cs : List Char) : Option (String × List Char) :=
  let s1 := cs.span isSepCh
  let s2 := s1.2.span isDigitCh
  if s2.1.isEmpty then none else some (String.mk s2.1, s2.2)

/-- Alternatives after the digit run and an (already decided) letter group:
prefer taking the unit group, else drop it; both gated by the lookahead
`la` (trivially true for the three marker patterns). -/
def tailAfterLetter (la : List Char → Bool) (num letter : String) (r : List Char) :
    Option TailRes :=
  (match matchUnit r with
   | some (a, r2) => if la r2 then some ⟨num, letter, some a, r2⟩ else none
   | none => none) <|>
  (if la r then some ⟨num, letter, none, r⟩ else none)

/-- Match `\s+(\d+)([a-zA-Z]?)(?:[\/\-\s]*(\d+))?` (with lookahead `la` at
the match end) at the front of `cs`.  The optional letter is greedy but
backtracks: regex semantics explore letter-taken alternatives before
letter-skipped ones. -/
def matchTail (la : List Char → Bool) (cs : List Char) : Option TailRes :=
  let s1 := cs.span isSpaceCh
  if s1.1.isEmpty then none else
  let s2 := s1.2.span isDigitCh
  if s2.1.isEmpty then none else
  let num := String.mk s2.1
  (match s2.2 with
   | c :: r3 => if isAsciiLetterCh c then tailAfterLetter la num (String.mk [c]) r3 else none
   | [] => none) <|>
  tailAfterLetter la num "" s2.2

/-- Lazy street-name group: starting from the already consumed `acc`,
consume between `minT` and `maxT` further `streetTailClass` characters
(`none` meaning no upper bound), trying the continuation `tm` at the
shortest extension first (`+?` / `{3,25}?` semantics). -/
def lazyStreet (tm : List Char → Option TailRes) :
    List Char → Nat → Option Nat → List Char → Option (List Char × TailRes)
  | [], minT, _, acc =>
    if minT = 0 then (tm []).map (fun t => (acc, t)) else none
  | c :: rest, 0, maxT, acc =>
    match tm (c :: rest) with
    | some t => some (acc, t)
    | none =>
      if streetTailClass c && maxT != some 0 then
        lazyStreet tm rest 0 (maxT.map (fun m => m - 1)) (acc ++ [c])
      else none
  | c :: rest, minT + 1, maxT, acc =>
    if streetTailClass c && maxT != some 0 then
      lazyStreet tm rest minT (maxT.map (fun m => m - 1)) (acc ++ [c])
    else none

/-- The four patterns of `address_patterns`, in cascade order. -/
inductive PatternKind
  | al
  | ul
  | ulica
  | bare
deriving DecidableEq, Repr

/-- Lookahead `(?=\s*[,\.\s]*(?:lublin|$))` of the bare pattern (under
`IGNORECASE`).  The two greedy star classes jointly consume a run of
`[,\.\s]`, disjoint from both `l` and end-of-text, so no backtracking.
`$` is modelled as end of input. -/
def lookaheadLublin (cs : List Char) : Bool :=
  let r := (cs.dropWhile isSpaceCh).dropWhile (fun c => c == ',' || c == '.' || isSpaceCh c)
  match r with
  | [] => true
  | c1 :: c2 :: c3 :: c4 :: c5 :: c6 :: _ =>
    ciEq c1 'l' && ciEq c2 'u' && ciEq c3 'b' && ciEq c4 'l' && ciEq c5 'i' && ciEq c6 'n'
  | _ => false

/-- Marker part of each pattern (`[Aa]l\.?\s+`, `[Uu]l\.?\s+`, `[Uu]lica\s+`,
or nothing for the bare pattern); returns the remainder after the marker.
The optional dot needs no backtracking since `.` is not whitespace. -/
def matchMarker : PatternKind → List Char → Option (List Char)
  | .al, c1 :: c2 :: rest =>
    if ciEq c1 'a' && ciEq c2 'l' then
      let rest2 := if rest.head? == some '.' then rest.tail else rest
      let s := rest2.span isSpaceCh
      if s.1.isEmpty then none else some s.2
    else none
  | .al, _ => none
  | .ul, c1 :: c2 :: rest =>
    if ciEq c1 'u' && ciEq c2 'l' then
      let rest2 := if rest.head? == some '.' then rest.tail else rest
      let s := rest2.span isSpaceCh
      if s.1.isEmpty then none else some s.2
    else none
  | .ul, _ => none
  | .ulica, c1 :: c2 :: c3 :: c4 :: c5 :: rest =>
    if ciEq c1 'u' && ciEq c2 'l' && ciEq c3 'i' && ciEq c4 'c' && ciEq c5 'a' then
      let s := rest.span isSpaceCh
      if s.1.isEmpty then none else some s.2
    else none
  | .ulica, _ => none
  | .bare, cs => some cs

/-- Minimum number of street tail characters: `+?` needs one, `{3,25}?`
needs three. -/
def streetMinTail : PatternKind → Nat
  | .bare => 3
  | _ => 1

/-- Maximum number of street tail characters: `{3,25}?` caps the bare
pattern at 25, the marker patterns are unbounded (`+?`). -/
def streetMaxTail : PatternKind → Option Nat
  | .bare => some 25
  | _ => none

/-- Lookahead used by each pattern. -/
def lookaheadFor : PatternKind → (List Char → Bool)
  | .bare => lookaheadLublin
  | _ => fun _ => true

/-- Attempt one pattern at the start of `cs`; on success return the captured
groups and the remainder after the match (`finditer` resumes there). -/
def matchPattern (k : PatternKind) (cs : List Char) : Option (RawMatch × List Char) :=
  match matchMarker k cs with
  | none => none
  | some r0 =>
    match r0 with
    | [] => none
    | c :: r1 =>
      if streetHeadClass c then
        match lazyStreet (matchTail (lookaheadFor k)) r1 (streetMinTail k)
            (streetMaxTail k) [c] with
        | some (streetChars, t) =>
          some (⟨String.mk streetChars, t.num, t.letter, t.apt⟩, t.rest)
        | none => none
      else none

/-- Stoplist of generic words filtered out of street names
(`['pokój', 'pokoj', 'wynajm', 'mieszkanie', 'oferta']`). -/
def stoplist : List String := ["pokój", "pokoj", "wynajm", "mieszkanie", "oferta"]

/-- Validation applied inside the `finditer` loop of
`_extract_address_IMPROVED`: stripped street name of length at least 3,
lowercase form not stoplisted, no digit among the first three characters,
and the digit run parsing to an integer in `[1, 999]`. -/
def validCand (m : RawMatch) : Bool :=
  let sn := pyStrip m.street
  if decide (sn.length < 3) || stoplist.contains (pyLower sn)
      || (sn.data.take 3).any isDigitCh then
    false
  else
    decide (1 ≤ digitsToNat m.num.data) && decide (digitsToNat m.num.data ≤ 999)

/-- Non-overlapping scan (`re.finditer`) of one pattern over the text with
per-match validation: an invalid match resumes the scan after its end, a
failed position advances by one character.  `fuel` bounds the recursion
structurally; a list one longer than the input always suffices since every
step strictly shortens the input. -/
def scanPattern (k : PatternKind) : List Char → List Char → Option RawMatch
  | [], _ => none
  | _ :: fuel, cs =>
    match matchPattern k cs with
    | some (m, rest) => if validCand m then some m else scanPattern k fuel rest
    | none =>
      match cs with
      | [] => none
      | _ :: t => scanPattern k fuel t

/-- First validated candidate over the pattern cascade, patterns tried in
the order they appear in `address_patterns`. -/
def extractCandidate (text : String) : Option RawMatch :=
  let cs := text.data
  scanPattern .al (' ' :: cs) cs <|>
  scanPattern .ul (' ' :: cs) cs <|>
  scanPattern .ulica (' ' :: cs) cs <|>
  scanPattern .bare (' ' :: cs) cs

/-- Structured result dict of `_extract_address_IMPROVED`. -/
structure AddressInfo where
  street_name : String
  building_number : String
  apartment_number : Option String
  full_address : String
deriving DecidableEq, Repr

/-- The conditional `result["full_address"] += f"/{apartment_number}"`:
the slash and unit number appear only when a unit was captured. -/
def aptSuffix : Option String → String
  | some a => "/" ++ a
  | none => ""

/-- Result construction of `_extract_address_IMPROVED`: title-case the
stripped street name, glue number and letter, and render
`"ul. <Street> <Number><Letter>[/<Unit>], Lublin"`. -/
def buildResult (m : RawMatch) : AddressInfo :=
  let street_normalized := pyTitle (pyStrip m.street)
  let full_building_number := m.num ++ m.letter
  { street_name := street_normalized,
    building_number := full_building_number,
    apartment_number := m.apt,
    full_address := "ul. " ++ street_normalized ++ " " ++ full_building_number
      ++ aptSuffix m.apt ++ ", Lublin" }

/-- `ImprovedOLXMonitor._extract_address_IMPROVED`. -/
def _extract_address_IMPROVED (text : String) : Option AddressInfo :=
  (extractCandidate text).map buildResult

/-! ## Geocoding: `LUBLIN_BOUNDS` and `ImprovedGeocoder.geocode` -/

/-- The `LUBLIN_BOUNDS` configuration dict. -/
structure Bounds where
  min_lat : ℚ
  max_lat : ℚ
  min_lon : ℚ
  max_lon : ℚ
deriving DecidableEq, Repr

/-- `LUBLIN_BOUNDS = {'min_lat': 51.15, 'max_lat': 51.35, 'min_lon': 22.35,
'max_lon': 22.75}`. -/
def LUBLIN_BOUNDS : Bounds :=
  { min_lat := mkRat 5115 100, max_lat := mkRat 5135 100,
    min_lon := mkRat 2235 100, max_lon := mkRat 2275 100 }

/-- A geocoding candidate or result `(lat, lon)`. -/
abbrev GeoPoint := ℚ × ℚ

/-- The in-bounds check of `geocode`:
`LUBLIN_BOUNDS['min_lat'] <= lat <= LUBLIN_BOUNDS['max_lat'] and
LUBLIN_BOUNDS['min_lon'] <= lon <= LUBLIN_BOUNDS['max_lon']`. -/
def inBounds (p : GeoPoint) : Bool :=
  decide (LUBLIN_BOUNDS.min_lat ≤ p.1) && decide (p.1 ≤ LUBLIN_BOUNDS.max_lat) &&
  decide (LUBLIN_BOUNDS.min_lon ≤ p.2) && decide (p.2 ≤ LUBLIN_BOUNDS.max_lon)

/-- The persistent geocoding cache (`self.cache`, a JSON dict on disk),
as an association list keyed by the cache-key string. -/
abbrev GeoCache := List (String × GeoPoint)

/-- Python dict assignment `self.cache[cache_key] = [lat, lon]`. -/
def cacheInsert (c : GeoCache) (k : String) (v : GeoPoint) : GeoCache :=
  (k, v) :: c.filter (fun kv => kv.1 ≠ k)

/-- The cache key `f"{street.lower()}_{number}_lublin"`. -/
def cache_key (street number : String) : String :=
  pyLower street ++ "_" ++ number ++ "_lublin"

/-- The fixed fallback query sequence of `geocode`, in source order. -/
def queriesList (street number : String) : List String :=
  [street ++ " " ++ number ++ ", Lublin, Polska",
   "ul. " ++ street ++ " " ++ number ++ ", Lublin, Poland",
   "ulica " ++ street ++ " " ++ number ++ ", Lublin, Polska",
   "al. " ++ street ++ " " ++ number ++ ", Lublin, Poland",
   "aleja " ++ street ++ " " ++ number ++ ", Lublin, Polska",
   street ++ ", Lublin, Polska"]

/-- The network, as seen by one query attempt: a transport error (any
exception out of `session.get` / `raise_for_status` / `json`, caught by the
`except` clause) or the candidate list of the response. -/
abbrev GeoEnv := String → Except Unit (List GeoPoint)

/-- Bump the attempt counter of a query-loop result. -/
def bumpCount (r : Option GeoPoint × GeoCache × Nat) : Option GeoPoint × GeoCache × Nat :=
  (r.1, r.2.1, r.2.2 + 1)

/-- The query loop of `geocode`: for each query, a transport error is
caught (log and fall through to the next query); otherwise the first
candidate inside `LUBLIN_BOUNDS` is written to the cache and returned.
The `Nat` component counts issued network queries. -/
def geocodeQueries (env : GeoEnv) (cache : GeoCache) (key : String) :
    List String → Option GeoPoint × GeoCache × Nat
  | [] => (none, cache, 0)
  | q :: qs =>
    match env q with
    | .error _ => bumpCount (geocodeQueries env cache key qs)
    | .ok results =>
      match results.find? inBounds with
      | some p => (some p, cacheInsert cache key p, 1)
      | none => bumpCount (geocodeQueries env cache key qs)

/-- `ImprovedGeocoder.geocode`: cache lookup first (`if cache_key in
self.cache: return tuple(self.cache[cache_key])`, no network traffic),
otherwise the fallback query loop. -/
def geocode (env : GeoEnv) (cache : GeoCache) (street number : String) :
    Option GeoPoint × GeoCache × Nat :=
  let key := cache_key street number
  match List.lookup key cache with
  | some p => (some p, cache, 0)
  | none => geocodeQueries env cache key (queriesList street number)

/-! ## One monitoring pass: `_process_offer_CONTENT` and `run_monitoring` -/

/-- What the HTML selector helpers deliver for one fetched offer page:
`_extract_title` (optional), `_extract_price` (text and numeric, with its
internal `("Brak ceny", 0)` default), `_extract_description` (optional).
The selector plumbing itself is an external collaborator; the page is the
interface value it produces. -/
structure Page where
  title : Option String
  price : String
  price_numeric : Int
  description : Option String
deriving DecidableEq, Repr

/-- One entry of the list produced by `_collect_ALL_offers`
(`{'offer_id': ..., 'url': ..., 'title': ...}`). -/
structure BasicOffer where
  offer_id : String
  url : String
  title : String
deriving DecidableEq, Repr

/-- The page fetch for one offer: `.error` models any exception raised
while fetching or parsing the page (caught by the per-offer `except`). -/
abbrev FetchEnv := String → Except Unit Page

/-- Python f-string rendering of an `Optional[str]` (`None` prints as
`"None"`), used by the hash input `f"{title}{price}{description}"`. -/
def pyStrOpt : Option String → String
  | some s => s
  | none => "None"

/-- `self._extract_title(soup) or basic_offer['title']` (Python `or` falls
through on an empty string as well as on `None`). -/
def computeTitle (page : Page) (basic : BasicOffer) : String :=
  match page.title with
  | some t => if t == "" then basic.title else t
  | none => basic.title

/-- `full_text = f"{title} {description}" if description else title`. -/
def fullTextOf (title : String) (description : Option String) : String :=
  match description with
  | some d => if d == "" then title else title ++ " " ++ d
  | none => title

/-- `description[:2000] if description else ''` for the stored record. -/
def storedDescription (description : Option String) : String :=
  match description with
  | some d => if d == "" then "" else pyTake 2000 d
  | none => ""

/-- `ImprovedOLXMonitor._process_offer_CONTENT`: fetch the page, search
title plus description for an address, geocode it, and build the
`RoomOffer` with the content hash `md5(f"{title}{price}{description}")`
over the untruncated description.  Any exception inside the body is caught
and turns into `none`.  The geocoder cache is threaded through. -/
def _process_offer_CONTENT (md5hex : String → String) (fetchEnv : FetchEnv)
    (geoEnv : GeoEnv) (cache : GeoCache) (basic : BasicOffer) (timestamp : String) :
    Option RoomOffer × GeoCache :=
  match fetchEnv basic.url with
  | .error _ => (none, cache)
  | .ok page =>
    let title := computeTitle page basic
    let price := page.price
    let price_numeric := page.price_numeric
    let description := page.description
    let full_text := fullTextOf title description
    match _extract_address_IMPROVED full_text with
    | none => (none, cache)
    | some info =>
      match geocode geoEnv cache info.street_name info.building_number with
      | (none, cache2, _) => (none, cache2)
      | (some p, cache2, _) =>
        let content_hash := md5hex (title ++ price ++ pyStrOpt description)
        (some { offer_id := basic.offer_id, title := title, price := price,
                price_numeric := price_numeric, url := basic.url,
                description := storedDescription description,
                street_name := info.street_name,
                building_number := info.building_number,
                apartment_number := info.apartment_number,
                full_address := info.full_address,
                latitude := some p.1, longitude := some p.2,
                first_seen := timestamp, last_seen := timestamp,
                is_active := true, hash := content_hash }, cache2)

/-- Loop state of `run_monitoring`: `len(processed_offers)`, the three
per-outcome counters of the `stats` dict, the `active_ids` set, the
database and the geocoder cache. -/
structure PassState where
  processed : Nat
  new_offers : Nat
  updated_offers : Nat
  unchanged_offers : Nat
  active_ids : List String
  db : List RoomOffer
  cache : GeoCache
deriving DecidableEq, Repr

/-- One iteration of the `for basic_offer in all_offers` loop of
`run_monitoring`: on success record the offer id, save to the database and
bump the counter named by the save result; on failure only the geocoder
cache state carries over. -/
def passStep (md5hex : String → String) (fetchEnv : FetchEnv) (geoEnv : GeoEnv)
    (timestamp : String) (st : PassState) (b : BasicOffer) : PassState :=
  match _process_offer_CONTENT md5hex fetchEnv geoEnv st.cache b timestamp with
  | (none, cache2) => { st with cache := cache2 }
  | (some o, cache2) =>
    let saved := save_offer st.db o
    { processed := st.processed + 1,
      new_offers := st.new_offers + (if saved.2 = .new then 1 else 0),
      updated_offers := st.updated_offers + (if saved.2 = .updated then 1 else 0),
      unchanged_offers := st.unchanged_offers + (if saved.2 = .unchanged then 1 else 0),
      active_ids := st.active_ids ++ [o.offer_id],
      db := saved.1, cache := cache2 }

/-- Reference recursion for the pass: the sequence of `save_offer`
classifications of the successfully processed offers, with the database and
the geocoder cache threaded exactly as the loop threads them.  Used to
state what the final statistics count. -/
def passOutcomes (md5hex : String → String) (fetchEnv : FetchEnv) (geoEnv : GeoEnv)
    (timestamp : String) :
    List BasicOffer → GeoCache → List RoomOffer → List SaveResult
  | [], _, _ => []
  | b :: rest, cache, db =>
    match _process_offer_CONTENT md5hex fetchEnv geoEnv cache b timestamp with
    | (none, cache2) => passOutcomes md5hex fetchEnv geoEnv timestamp rest cache2 db
    | (some o, cache2) =>
      let saved := save_offer db o
      saved.2 :: passOutcomes md5hex fetchEnv geoEnv timestamp rest cache2 saved.1

/-- The `final_stats` dict that `run_monitoring` returns and passes to
`save_stats`, with the keys in source order. -/
def mkFinalStats (total with_addr new_o upd_o act inact : Nat) : List (String × Nat) :=
  [("total_found", total), ("with_addresses", with_addr), ("new_offers", new_o),
   ("updated_offers", upd_o), ("active_offers", act), ("inactive_offers", inact)]

/-- Result of one monitoring pass: the returned/persisted statistics, the
final database and the final geocoder cache. -/
structure FinalReport where
  stats : List (String × Nat)
  db : List RoomOffer
  cache : GeoCache
deriving DecidableEq, Repr

/-- `ImprovedOLXMonitor.run_monitoring`, from the processing loop on: fold
the per-offer step over the scraped offers, mark the absentees inactive,
recount active/inactive over the rows with coordinates, and build
`final_stats`.  Scraping (`_collect_ALL_offers`) and map rendering are
outside the embedded core; the scraped list is the input. -/
def run_monitoring (md5hex : String → String) (fetchEnv : FetchEnv) (geoEnv : GeoEnv)
    (cache0 : GeoCache) (db0 : List RoomOffer) (timestamp : String)
    (all_offers : List BasicOffer) : FinalReport :=
  let st := all_offers.foldl (passStep md5hex fetchEnv geoEnv timestamp)
    { processed := 0, new_offers := 0, updated_offers := 0, unchanged_offers := 0,
      active_ids := [], db := db0, cache := cache0 }
  let db2 := mark_inactive_offers st.db st.active_ids timestamp
  let all_in_db := get_all_offers db2
  let active_count := (all_in_db.filter (fun o => o.is_active)).length
  let inactive_count := all_in_db.length - active_count
  { stats := mkFinalStats all_offers.length st.processed st.new_offers st.updated_offers
      active_count inactive_count,
    db := db2, cache := st.cache }

/-! ## Further spec-side definitions and concrete fixtures -/

/-- One query attempt that contributes nothing: a transport error, or a
response whose candidates are all outside the bounding box. -/
def queryFails (env : GeoEnv) (q : String) : Prop :=
  match env q with
  | .error _ => True
  | .ok rs => rs.find? inBounds = none

/-- Helper for `isCapitalizedRun`: the flag records whether the scan is at
the start of a word. -/
def capWordsAux : Bool → List Char → Bool
  | _, [] => true
  | atStart, c :: r =>
    if isSpaceCh c then capWordsAux true r
    else if atStart then isUpperPl c && capWordsAux false r
    else isLetterPl c && capWordsAux false r

/-- Rendering of the claim wording for C7: the street name is a run of
capitalized-initial words in the local alphabet. -/
def isCapitalizedRun (s : String) : Bool :=
  !s.data.isEmpty && capWordsAux true s.data

/-- Fixture: a stored offer row. -/
def fixtureRow : RoomOffer :=
  { offer_id := "A", title := "t", price := "p", price_numeric := 1, url := "u",
    description := "d", street_name := "S", building_number := "1",
    apartment_number := none, full_address := "f", latitude := none, longitude := none,
    first_seen := "d1", last_seen := "d1", is_active := true, hash := "h1" }

/-- Fixture: the same offer rescraped with an edited title, hence a new
content hash. -/
def fixtureOfferChanged : RoomOffer :=
  { fixtureRow with title := "t2", last_seen := "d2", hash := "h2" }

/-- Fixture geocoding network: every query answers with one in-bounds
candidate. -/
def envOkW : GeoEnv := fun _ => .ok [(mkRat 512 10, mkRat 225 10)]

/-- Fixture geocoding network: every query raises a transport error. -/
def envErrW : GeoEnv := fun _ => .error ()

/-- Fixture page fetch: every fetch raises. -/
def fetchErrW : FetchEnv := fun _ => .error ()

/-- Fixture page whose title carries an extractable address. -/
def pageProstaW : Page :=
  { title := some "ul. Prosta 5", price := "500 zł", price_numeric := 500,
    description := none }

/-- Fixture page without any address-shaped text. -/
def pageNoAddrW : Page :=
  { title := some "brak adresu tutaj", price := "Brak ceny", price_numeric := 0,
    description := none }

/-- Fixture fetch for the three-offer scenario: two pages with an address,
one without. -/
def fetchThreeW : FetchEnv := fun url =>
  if url == "u3" then .ok pageNoAddrW else .ok pageProstaW

/-- Fixture scraped list for the three-offer scenario. -/
def offersThreeW : List BasicOffer :=
  [{ offer_id := "id1", url := "u1", title := "t1" },
   { offer_id := "id2", url := "u2", title := "t2" },
   { offer_id := "id3", url := "u3", title := "t3" }]

/-- Fixture description longer than 2000 characters. -/
def longDescW : String := String.mk (List.replicate 2001 'x')

/-- Fixture page carrying the long description; the avenue-marked title
makes the first cascade pattern match at position zero. -/
def pageLongW : Page :=
  { title := some "Al. Prosta 5", price := "500", price_numeric := 500,
    description := some longDescW }

/-- Fixture fetch delivering the long-description page. -/
def fetchLongW : FetchEnv := fun _ => .ok pageLongW

/-- Fixture raw offer for the long-description scenario. -/
def basicLongW : BasicOffer := { offer_id := "b1", url := "u1", title := "t1" }

/-- Fixture raw offer whose fetch fails. -/
def basicErrW : BasicOffer := { offer_id := "bX", url := "uX", title := "tX" }

/-- The offer record that `_process_offer_CONTENT` builds in the
long-description scenario (truncated stored description, hash over the
full text, `md5hex := id`). -/
def offerLongW : RoomOffer :=
  { offer_id := "b1", title := "Al. Prosta 5", price := "500", price_numeric := 500,
    url := "u1", description := pyTake 2000 longDescW,
    street_name := "Prosta", building_number := "5", apartment_number := none,
    full_address := "ul. Prosta 5, Lublin", latitude := some (mkRat 512 10),
    longitude := some (mkRat 225 10),
    first_seen := "ts", last_seen := "ts", is_active := true,
    hash := "Al. Prosta 5" ++ "500" ++ longDescW }

/-- The geocoder cache after the long-description scenario. -/
def cacheLongW : GeoCache := [("prosta_5_lublin", (mkRat 512 10, mkRat 225 10))]

/-! ## Helper lemmas -/

theorem lookup_mem {k : String} {v : GeoPoint} {l : GeoCache}
    (h : List.lookup k l = some v) : (k, v) ∈ l := by
  induction l with
  | nil => simp [List.lookup] at h
  | cons hd tl ih =>
    obtain ⟨a, b⟩ := hd
    by_cases hk : k = a
    · subst hk
      simp [List.lookup] at h
      subst h
      exact List.mem_cons_self _ _
    · have hba : (k == a) = false := beq_eq_false_iff_ne.mpr hk
      simp [List.lookup, hba] at h
      exact List.mem_cons_of_mem _ (ih h)

theorem overwriteMutable_first_seen (offer row : RoomOffer) :
    (overwriteMutable offer row).first_seen = row.first_seen := by
  unfold overwriteMutable
  split <;> rfl

theorem touchLastSeen_first_seen (offer row : RoomOffer) :
    (touchLastSeen offer row).first_seen = row.first_seen := by
  unfold touchLastSeen
  split <;> rfl

theorem bumpCount_fst (r : Option GeoPoint × GeoCache × Nat) : (bumpCount r).1 = r.1 := rfl

theorem bumpCount_cache (r : Option GeoPoint × GeoCache × Nat) : (bumpCount r).2.1 = r.2.1 := rfl

theorem geocode_hit {env : GeoEnv} {c : GeoCache} {street number : String} {p : GeoPoint}
    (hl : List.lookup (cache_key street number) c = some p) :
    geocode env c street number = (some p, c, 0) := by
  simp [geocode, hl]

theorem geocode_miss {env : GeoEnv} {c : GeoCache} {street number : String}
    (hl : List.lookup (cache_key street number) c = none) :
    geocode env c street number =
      geocodeQueries env c (cache_key street number) (queriesList street number) := by
  simp [geocode, hl]

theorem gq_error {env : GeoEnv} {q : String} {e : Unit} (henv : env q = .error e)
    (c : GeoCache) (key : String) (qs : List String) :
    geocodeQueries env c key (q :: qs) = bumpCount (geocodeQueries env c key qs) := by
  simp [geocodeQueries, henv]

theorem gq_found {env : GeoEnv} {q : String} {rs : List GeoPoint} {p : GeoPoint}
    (henv : env q = .ok rs) (hf : rs.find? inBounds = some p)
    (c : GeoCache) (key : String) (qs : List String) :
    geocodeQueries env c key (q :: qs) = (some p, cacheInsert c key p, 1) := by
  simp [geocodeQueries, henv, hf]

theorem gq_nofind {env : GeoEnv} {q : String} {rs : List GeoPoint}
    (henv : env q = .ok rs) (hf : rs.find? inBounds = none)
    (c : GeoCache) (key : String) (qs : List String) :
    geocodeQueries env c key (q :: qs) = bumpCount (geocodeQueries env c key qs) := by
  simp [geocodeQueries, henv, hf]

theorem geocodeQueries_some {env : GeoEnv} {key : String} :
    ∀ (qs : List String) (c : GeoCache) {p : GeoPoint},
      (geocodeQueries env c key qs).1 = some p →
      (geocodeQueries env c key qs).2.1 = cacheInsert c key p ∧ inBounds p = true := by
  intro qs
  induction qs with
  | nil => intro c p h; simp [geocodeQueries] at h
  | cons q rest ih =>
    intro c p h
    cases henv : env q with
    | error e =>
      rw [gq_error henv] at h ⊢
      rw [bumpCount_fst] at h
      rw [bumpCount_cache]
      exact ih c h
    | ok rs =>
      cases hf : rs.find? inBounds with
      | some p0 =>
        rw [gq_found henv hf] at h ⊢
        simp at h
        subst h
        exact ⟨rfl, List.find?_some hf⟩
      | none =>
        rw [gq_nofind henv hf] at h ⊢
        rw [bumpCount_fst] at h
        rw [bumpCount_cache]
        exact ih c h

theorem geocodeQueries_none {env : GeoEnv} {key : String} :
    ∀ (qs : List String) (c : GeoCache),
      (geocodeQueries env c key qs).1 = none →
      (geocodeQueries env c key qs).2.1 = c := by
  intro qs
  induction qs with
  | nil => intro c _; rfl
  | cons q rest ih =>
    intro c h
    cases henv : env q with
    | error e =>
      rw [gq_error henv] at h ⊢
      rw [bumpCount_fst] at h
      rw [bumpCount_cache]
      exact ih c h
    | ok rs =>
      cases hf : rs.find? inBounds with
      | some p0 => rw [gq_found henv hf] at h; simp at h
      | none =>
        rw [gq_nofind henv hf] at h ⊢
        rw [bumpCount_fst] at h
        rw [bumpCount_cache]
        exact ih c h

theorem geocodeQueries_fail {env : GeoEnv} {key : String} :
    ∀ (qs : List String) (c : GeoCache),
      (∀ q ∈ qs, queryFails env q) →
      geocodeQueries env c key qs = (none, c, qs.length) := by
  intro qs
  induction qs with
  | nil => intro c _; rfl
  | cons q rest ih =>
    intro c hall
    have hq := hall q (List.mem_cons_self _ _)
    have hrest := ih c (fun x hx => hall x (List.mem_cons_of_mem _ hx))
    cases henv : env q with
    | error e =>
      rw [gq_error henv, hrest]
      rfl
    | ok rs =>
      have hf : rs.find? inBounds = none := by
        simp only [queryFails, henv] at hq
        exact hq
      rw [gq_nofind henv hf, hrest]
      rfl

/-! ## Claim theorems: the offer store (C1, C2) -/

/-- C1: `save_offer` inserts the full record (activated) and returns `new`
when no stored row has the incoming id; when a row exists, it overwrites
exactly the mutable columns (title, price, price_numeric, description,
last_seen, hash) and reactivates, returning `updated`, exactly when the
stored hash differs or the row is inactive, and otherwise only advances
`last_seen`, returning `unchanged`; in every non-insert case the stored
`first_seen` column of every row is preserved. -/
theorem save_offer_C1 (store : List RoomOffer) (offer : RoomOffer) :
    (store.find? (fun r => r.offer_id == offer.offer_id) = none →
      save_offer store offer = (store ++ [{ offer with is_active := true }], .new)) ∧
    (∀ r, store.find? (fun r => r.offer_id == offer.offer_id) = some r →
      ((r.hash ≠ offer.hash ∨ r.is_active = false) →
        save_offer store offer = (store.map (overwriteMutable offer), .updated)) ∧
      (r.hash = offer.hash → r.is_active = true →
        save_offer store offer = (store.map (touchLastSeen offer), .unchanged))) ∧
    ((save_offer store offer).2 ≠ .new →
      (save_offer store offer).1.map (fun row => row.first_seen) =
        store.map (fun row => row.first_seen)) := by
  refine ⟨?_, ?_, ?_⟩
  · intro h
    unfold save_offer
    rw [h]
  · intro r hr
    constructor
    · intro hcond
      simp only [save_offer, hr]
      rw [if_pos hcond]
    · intro h1 h2
      simp only [save_offer, hr]
      rw [if_neg (by simp [h1, h2])]
  · intro hne
    cases hfind : store.find? (fun r => r.offer_id == offer.offer_id) with
    | none => simp [save_offer, hfind] at hne
    | some r =>
      simp only [save_offer, hfind] at hne ⊢
      split
      · simp only [List.map_map]
        apply List.map_congr_left
        intro a _
        exact overwriteMutable_first_seen offer a
      · simp only [List.map_map]
        apply List.map_congr_left
        intro a _
        exact touchLastSeen_first_seen offer a

/-- Witness for C1: rescraping the stored fixture row with an edited title
(new hash) classifies as `updated`. -/
theorem save_offer_C1_witness :
    save_offer [fixtureRow] fixtureOfferChanged =
      ([fixtureRow].map (overwriteMutable fixtureOfferChanged), .updated) :=
  ((save_offer_C1 [fixtureRow] fixtureOfferChanged).2.1 fixtureRow (by decide)).1
    (Or.inl (by decide))

/-- C2: `mark_inactive_offers` deactivates (and stamps `last_seen` on)
exactly the currently-active rows whose id is not in the given set, leaving
all other rows untouched; with an empty id set every row of the result is
inactive. -/
theorem mark_inactive_offers_C2 (store : List RoomOffer) (active_ids : List String)
    (timestamp : String) :
    mark_inactive_offers store active_ids timestamp =
      store.map (fun r =>
        if r.is_active && !(active_ids.contains r.offer_id) then
          { r with is_active := false, last_seen := timestamp }
        else r) ∧
    (∀ r, r ∈ mark_inactive_offers store [] timestamp → r.is_active = false) := by
  constructor
  · unfold mark_inactive_offers
    split
    · rfl
    · next hempty =>
      have he : active_ids = [] := by simpa using hempty
      subst he
      apply List.map_congr_left
      intro a _
      simp [List.contains]
  · intro r hr
    simp only [mark_inactive_offers] at hr
    simp at hr
    obtain ⟨a, _, rfl⟩ := hr
    by_cases h : a.is_active
    · simp [h]
    · simp [h]

/-- Witness for C2: deactivating over an empty active-id set turns the
stored fixture row inactive. -/
theorem mark_inactive_offers_C2_witness :
    ({ fixtureRow with is_active := false, last_seen := "d9" } : RoomOffer).is_active = false :=
  (mark_inactive_offers_C2 [fixtureRow] [] "d9").2 _ (by decide)

/-! ## Claim theorems: the geocoder (C4, C5, C6) -/

/-- C4: a successful `geocode` call leaves the cache entry for its key in
place before returning, and a second call with the same arguments, under
any network environment at all, returns the same point from the cache with
zero network queries and an unchanged cache. -/
theorem geocode_C4 (env env2 : GeoEnv) (c : GeoCache) (street number : String)
    (p : GeoPoint) (h : (geocode env c street number).1 = some p) :
    List.lookup (cache_key street number) (geocode env c street number).2.1 = some p ∧
    geocode env2 (geocode env c street number).2.1 street number =
      (some p, (geocode env c street number).2.1, 0) := by
  have hmain : List.lookup (cache_key street number) (geocode env c street number).2.1
      = some p := by
    cases hl : List.lookup (cache_key street number) c with
    | some v =>
      rw [geocode_hit hl] at h ⊢
      simp at h
      subst h
      exact hl
    | none =>
      rw [geocode_miss hl] at h ⊢
      obtain ⟨hcache, _⟩ := geocodeQueries_some _ _ h
      rw [hcache]
      simp [cacheInsert, List.lookup]
  exact ⟨hmain, geocode_hit hmain⟩

/-- Witness for C4: after one successful resolution, a repeat call with a
network that always fails is still served from the cache. -/
theorem geocode_C4_witness :
    geocode envErrW (geocode envOkW [] "X" "1").2.1 "X" "1" =
      (some (mkRat 512 10, mkRat 225 10), (geocode envOkW [] "X" "1").2.1, 0) :=
  (geocode_C4 envOkW envErrW [] "X" "1" (mkRat 512 10, mkRat 225 10) (by decide)).2

/-- C5: every entry of the cache after a `geocode` call is either an entry
that was already there or an in-bounds point, every returned point is
either a previously cached value or an in-bounds point, and consequently
when every cached point lies inside `LUBLIN_BOUNDS`, both the returned
point and the whole resulting cache lie inside `LUBLIN_BOUNDS`;
out-of-bounds candidates are never returned and never stored. -/
theorem geocode_C5 (env : GeoEnv) (c : GeoCache) (street number : String) :
    (∀ kv ∈ (geocode env c street number).2.1, kv ∈ c ∨ inBounds kv.2 = true) ∧
    (∀ p, (geocode env c street number).1 = some p →
      (∃ k, (k, p) ∈ c) ∨ inBounds p = true) ∧
    ((∀ kv ∈ c, inBounds kv.2 = true) →
      (∀ p, (geocode env c street number).1 = some p → inBounds p = true) ∧
      (∀ kv ∈ (geocode env c street number).2.1, inBounds kv.2 = true)) := by
  have h1 : ∀ kv ∈ (geocode env c street number).2.1, kv ∈ c ∨ inBounds kv.2 = true := by
    intro kv hkv
    cases hl : List.lookup (cache_key street number) c with
    | some v =>
      rw [geocode_hit hl] at hkv
      exact Or.inl hkv
    | none =>
      rw [geocode_miss hl] at hkv
      cases hres : (geocodeQueries env c (cache_key street number)
          (queriesList street number)).1 with
      | none =>
        rw [geocodeQueries_none _ _ hres] at hkv
        exact Or.inl hkv
      | some p =>
        obtain ⟨hcache, hb⟩ := geocodeQueries_some _ _ hres
        rw [hcache] at hkv
        simp only [cacheInsert] at hkv
        rcases List.mem_cons.mp hkv with hkv | hkv
        · subst hkv
          exact Or.inr hb
        · exact Or.inl (List.mem_of_mem_filter hkv)
  have h2 : ∀ p, (geocode env c street number).1 = some p →
      (∃ k, (k, p) ∈ c) ∨ inBounds p = true := by
    intro p hp
    cases hl : List.lookup (cache_key street number) c with
    | some v =>
      rw [geocode_hit hl] at hp
      simp at hp
      subst hp
      exact Or.inl ⟨cache_key street number, lookup_mem hl⟩
    | none =>
      rw [geocode_miss hl] at hp
      exact Or.inr (geocodeQueries_some _ _ hp).2
  refine ⟨h1, h2, fun hinv => ⟨?_, ?_⟩⟩
  · intro p hp
    rcases h2 p hp with ⟨k, hk⟩ | hb
    · exact hinv (k, p) hk
    · exact hb
  · intro kv hkv
    rcases h1 kv hkv with hin | hb
    · exact hinv kv hin
    · exact hb

/-- Witness for C5: the point returned by a fresh resolution over an empty
cache lies inside the Lublin bounding box. -/
theorem geocode_C5_witness : inBounds (mkRat 512 10, mkRat 225 10) = true :=
  ((geocode_C5 envOkW [] "X" "1").2.2 (by simp)).1 (mkRat 512 10, mkRat 225 10) (by decide)

/-- C6: `geocode` never propagates a transport error: an erroring query is
caught and the loop continues with the next query in the fallback sequence
(only the attempt counter differs), and when every one of the six queries
fails (error or no in-bounds candidate) the call returns `none` with the
cache untouched after issuing all six queries. -/
theorem geocode_C6 (env : GeoEnv) (c : GeoCache) (key q : String) (qs : List String)
    (street number : String) :
    (env q = .error () → geocodeQueries env c key (q :: qs) =
      bumpCount (geocodeQueries env c key qs)) ∧
    (List.lookup (cache_key street number) c = none →
      (∀ q2 ∈ queriesList street number, queryFails env q2) →
      geocode env c street number = (none, c, 6)) := by
  constructor
  · intro h
    exact gq_error h c key qs
  · intro hl hall
    rw [geocode_miss hl]
    exact geocodeQueries_fail (queriesList street number) c hall

/-- Witness for C6: with a network that always raises, one query errors
into the next, and a full call returns `none` after six attempts. -/
theorem geocode_C6_witness :
    geocodeQueries envErrW [] "k" ["a"] = bumpCount (geocodeQueries envErrW [] "k" []) ∧
    geocode envErrW [] "X" "1" = (none, [], 6) :=
  ⟨(geocode_C6 envErrW [] "k" "a" [] "X" "1").1 rfl,
   (geocode_C6 envErrW [] "k" "a" [] "X" "1").2 rfl (fun _ _ => trivial)⟩

/-! ## Helper lemmas for the extraction cascade -/

theorem optionOrElse_some {α : Type} {a b : Option α} {x : α} (h : (a <|> b) = some x) :
    a = some x ∨ b = some x := by
  cases a <;> simp_all [Option.orElse]

theorem lazyStreet_chars {tm : List Char → Option TailRes} :
    ∀ (cs : List Char) (minT : Nat) (maxT : Option Nat) (acc acc2 : List Char) (t : TailRes),
      lazyStreet tm cs minT maxT acc = some (acc2, t) →
      ∃ ext, acc2 = acc ++ ext ∧ ∀ x ∈ ext, streetTailClass x = true := by
  intro cs
  induction cs with
  | nil =>
    intro minT maxT acc acc2 t h
    simp only [lazyStreet] at h
    split at h
    · obtain ⟨t0, _, ht⟩ := Option.map_eq_some'.mp h
      refine ⟨[], ?_, by simp⟩
      simpa using congrArg Prod.fst ht.symm
    · simp at h
  | cons c rest ih =>
    intro minT maxT acc acc2 t h
    cases minT with
    | zero =>
      simp only [lazyStreet] at h
      split at h
      · next t0 htm =>
        simp at h
        refine ⟨[], by simp [h.1], by simp⟩
      · split at h
        · next hcond =>
          obtain ⟨ext, hext, hall⟩ := ih 0 (maxT.map (fun m => m - 1)) (acc ++ [c]) acc2 t h
          refine ⟨c :: ext, by simp [hext], ?_⟩
          intro x hx
          rcases List.mem_cons.mp hx with rfl | hx
          · exact (Bool.and_eq_true_iff.mp hcond).1
          · exact hall x hx
        · simp at h
    | succ minT =>
      simp only [lazyStreet] at h
      split at h
      · next hcond =>
        obtain ⟨ext, hext, hall⟩ := ih minT (maxT.map (fun m => m - 1)) (acc ++ [c]) acc2 t h
        refine ⟨c :: ext, by simp [hext], ?_⟩
        intro x hx
        rcases List.mem_cons.mp hx with rfl | hx
        · exact (Bool.and_eq_true_iff.mp hcond).1
        · exact hall x hx
      · simp at h

theorem matchPattern_shape {k : PatternKind} {cs : List Char} {m : RawMatch}
    {rest : List Char} (h : matchPattern k cs = some (m, rest)) :
    ∃ c ext, m.street.data = c :: ext ∧ streetHeadClass c = true ∧
      ∀ x ∈ ext, streetTailClass x = true := by
  simp only [matchPattern] at h
  split at h
  · simp at h
  · split at h
    · simp at h
    · split at h
      · rename_i hhead
        split at h
        · rename_i streetChars t hlz
          simp at h
          obtain ⟨hm, _⟩ := h
          obtain ⟨ext, hext, hall⟩ := lazyStreet_chars _ _ _ _ _ _ hlz
          subst hm
          exact ⟨_, ext, by simp [hext], hhead, hall⟩
        · simp at h
      · simp at h

theorem scanPattern_valid {k : PatternKind} :
    ∀ (fuel : List Char) (cs : List Char) (m : RawMatch),
      scanPattern k fuel cs = some m →
      validCand m = true ∧ ∃ c ext, m.street.data = c :: ext ∧
        streetHeadClass c = true ∧ ∀ x ∈ ext, streetTailClass x = true := by
  intro fuel
  induction fuel with
  | nil => intro cs m h; simp [scanPattern] at h
  | cons f0 f ih =>
    intro cs m h
    simp only [scanPattern] at h
    split at h
    · next m0 rest hmp =>
      split at h
      · next hv =>
        simp at h
        subst h
        exact ⟨hv, matchPattern_shape hmp⟩
      · exact ih rest m h
    · split at h
      · simp at h
      · exact ih _ m h

theorem extractCandidate_valid {text : String} {m : RawMatch}
    (h : extractCandidate text = some m) :
    validCand m = true ∧ ∃ c ext, m.street.data = c :: ext ∧
      streetHeadClass c = true ∧ ∀ x ∈ ext, streetTailClass x = true := by
  simp only [extractCandidate] at h
  rcases optionOrElse_some h with h | h
  · exact scanPattern_valid _ _ _ h
  rcases optionOrElse_some h with h | h
  · exact scanPattern_valid _ _ _ h
  rcases optionOrElse_some h with h | h
  · exact scanPattern_valid _ _ _ h
  · exact scanPattern_valid _ _ _ h

/-! ## Claim theorems: address extraction (C3, C7) -/

/-- C3: whenever `_extract_address_IMPROVED` succeeds, whichever cascade
pattern matched, the returned address is built from the first validated
candidate with the street name title-cased, the building number the digit
run plus the optional letter, and the formatted address exactly
`"ul. <Street> <Number><Letter>[/<Unit>], Lublin"`; the two literal inputs
from the specification produce the stated records, the avenue-marked one
included ("ul." appears despite the "Al." marker). -/
theorem extract_address_C3 :
    (∀ text r, _extract_address_IMPROVED text = some r →
      ∃ m, extractCandidate text = some m ∧
        r.street_name = pyTitle (pyStrip m.street) ∧
        r.building_number = m.num ++ m.letter ∧
        r.apartment_number = m.apt ∧
        r.full_address = "ul. " ++ r.street_name ++ " " ++ r.building_number ++
          aptSuffix r.apartment_number ++ ", Lublin") ∧
    _extract_address_IMPROVED "Pokój w ul. Narutowicza 14, Lublin" =
      some { street_name := "Narutowicza", building_number := "14",
             apartment_number := none, full_address := "ul. Narutowicza 14, Lublin" } ∧
    _extract_address_IMPROVED "Al. Kraśnicka 73a/12" =
      some { street_name := "Kraśnicka", building_number := "73a",
             apartment_number := some "12",
             full_address := "ul. Kraśnicka 73a/12, Lublin" } := by
  refine ⟨?_, by decide, by decide⟩
  intro text r h
  simp only [_extract_address_IMPROVED] at h
  obtain ⟨m, hm, hr⟩ := Option.map_eq_some'.mp h
  subst hr
  exact ⟨m, hm, rfl, rfl, rfl, rfl⟩

/-- Witness for C3: the formatted address of the first literal input obeys
the fixed rendering scheme. -/
theorem extract_address_C3_witness :
    ({ street_name := "Narutowicza", building_number := "14", apartment_number := none,
       full_address := "ul. Narutowicza 14, Lublin" } : AddressInfo).full_address =
      "ul. " ++ "Narutowicza" ++ " " ++ "14" ++ aptSuffix none ++ ", Lublin" := by
  obtain ⟨m, _, _, _, _, hfa⟩ :=
    extract_address_C3.1 "Pokój w ul. Narutowicza 14, Lublin" _ extract_address_C3.2.1
  exact hfa

/-- C7 counterexample: because the patterns are compiled with
`re.IGNORECASE`, extraction succeeds on `"ul. narutowicza 14"` even though
the matched street-name candidate `"narutowicza"` is not a run of
capitalized-initial words, so the claim that a result is returned only for
capitalized-initial street candidates is false. -/
theorem extract_C7_counterexample :
    extractCandidate "ul. narutowicza 14" =
      some { street := "narutowicza", num := "14", letter := "", apt := none } ∧
    isCapitalizedRun "narutowicza" = false ∧
    (_extract_address_IMPROVED "ul. narutowicza 14").isSome = true := by
  exact ⟨by decide, by decide, by decide⟩

/-- C7 (amended): whenever extraction produces a candidate, that candidate
passed every validation rule the code applies: the street name is one
letter of the local alphabet followed by letters/whitespace of the local
alphabet (of either case, because of `IGNORECASE` — not necessarily
capitalized), its stripped form has length at least 3, is not a stoplisted
generic word, has no digit among its first three characters, and the digit
run of the building number parses to an integer in `[1, 999]`. -/
theorem extract_C7_amended (text : String) (m : RawMatch)
    (h : extractCandidate text = some m) :
    (∃ c ext, m.street.data = c :: ext ∧ streetHeadClass c = true ∧
      ∀ x ∈ ext, streetTailClass x = true) ∧
    3 ≤ (pyStrip m.street).length ∧
    stoplist.contains (pyLower (pyStrip m.street)) = false ∧
    ((pyStrip m.street).data.take 3).any isDigitCh = false ∧
    1 ≤ digitsToNat m.num.data ∧ digitsToNat m.num.data ≤ 999 := by
  obtain ⟨hv, hshape⟩ := extractCandidate_valid h
  refine ⟨hshape, ?_⟩
  simp only [validCand] at hv
  split at hv
  · simp at hv
  · next hcond =>
    rw [Bool.not_eq_true] at hcond
    obtain ⟨h12, hdig⟩ := Bool.or_eq_false_iff.mp hcond
    obtain ⟨hlen, hstop⟩ := Bool.or_eq_false_iff.mp h12
    obtain ⟨hlo, hhi⟩ := Bool.and_eq_true_iff.mp hv
    exact ⟨Nat.le_of_not_lt (of_decide_eq_false hlen), hstop, hdig,
      of_decide_eq_true hlo, of_decide_eq_true hhi⟩

/-- Witness for C7 (amended): the candidate extracted from
`"ul. Prosta 5"` satisfies the length and stoplist rules. -/
theorem extract_C7_witness :
    3 ≤ (pyStrip "Prosta").length ∧
    stoplist.contains (pyLower (pyStrip "Prosta")) = false :=
  ⟨(extract_C7_amended "ul. Prosta 5" ⟨"Prosta", "5", "", none⟩ (by decide)).2.1,
   (extract_C7_amended "ul. Prosta 5" ⟨"Prosta", "5", "", none⟩ (by decide)).2.2.1⟩

/-! ## Helper lemmas for the monitoring pass -/

theorem passStep_eq_none {md5hex : String → String} {fetchEnv : FetchEnv} {geoEnv : GeoEnv}
    {timestamp : String} {st : PassState} {b : BasicOffer} {c2 : GeoCache}
    (hp : _process_offer_CONTENT md5hex fetchEnv geoEnv st.cache b timestamp = (none, c2)) :
    passStep md5hex fetchEnv geoEnv timestamp st b = { st with cache := c2 } := by
  simp [passStep, hp]

theorem passStep_eq_some {md5hex : String → String} {fetchEnv : FetchEnv} {geoEnv : GeoEnv}
    {timestamp : String} {st : PassState} {b : BasicOffer} {o : RoomOffer} {c2 : GeoCache}
    (hp : _process_offer_CONTENT md5hex fetchEnv geoEnv st.cache b timestamp = (some o, c2)) :
    passStep md5hex fetchEnv geoEnv timestamp st b =
      { processed := st.processed + 1,
        new_offers := st.new_offers + (if (save_offer st.db o).2 = .new then 1 else 0),
        updated_offers :=
          st.updated_offers + (if (save_offer st.db o).2 = .updated then 1 else 0),
        unchanged_offers :=
          st.unchanged_offers + (if (save_offer st.db o).2 = .unchanged then 1 else 0),
        active_ids := st.active_ids ++ [o.offer_id],
        db := (save_offer st.db o).1, cache := c2 } := by
  simp [passStep, hp]

theorem passOutcomes_cons_none {md5hex : String → String} {fetchEnv : FetchEnv}
    {geoEnv : GeoEnv} {timestamp : String} {cache c2 : GeoCache} {b : BasicOffer}
    (hp : _process_offer_CONTENT md5hex fetchEnv geoEnv cache b timestamp = (none, c2))
    (rest : List BasicOffer) (db : List RoomOffer) :
    passOutcomes md5hex fetchEnv geoEnv timestamp (b :: rest) cache db =
      passOutcomes md5hex fetchEnv geoEnv timestamp rest c2 db := by
  simp [passOutcomes, hp]

theorem passOutcomes_cons_some {md5hex : String → String} {fetchEnv : FetchEnv}
    {geoEnv : GeoEnv} {timestamp : String} {cache c2 : GeoCache} {b : BasicOffer}
    {o : RoomOffer}
    (hp : _process_offer_CONTENT md5hex fetchEnv geoEnv cache b timestamp = (some o, c2))
    (rest : List BasicOffer) (db : List RoomOffer) :
    passOutcomes md5hex fetchEnv geoEnv timestamp (b :: rest) cache db =
      (save_offer db o).2 :: passOutcomes md5hex fetchEnv geoEnv timestamp rest c2
        (save_offer db o).1 := by
  simp [passOutcomes, hp]

theorem foldl_passStep_outcomes (md5hex : String → String) (fetchEnv : FetchEnv)
    (geoEnv : GeoEnv) (timestamp : String) :
    ∀ (offers : List BasicOffer) (st : PassState),
      (offers.foldl (passStep md5hex fetchEnv geoEnv timestamp) st).processed =
        st.processed +
          (passOutcomes md5hex fetchEnv geoEnv timestamp offers st.cache st.db).length ∧
      (offers.foldl (passStep md5hex fetchEnv geoEnv timestamp) st).new_offers =
        st.new_offers +
          (passOutcomes md5hex fetchEnv geoEnv timestamp offers st.cache st.db).count .new ∧
      (offers.foldl (passStep md5hex fetchEnv geoEnv timestamp) st).updated_offers =
        st.updated_offers +
          (passOutcomes md5hex fetchEnv geoEnv timestamp offers st.cache st.db).count
            .updated := by
  intro offers
  induction offers with
  | nil => intro st; simp [passOutcomes]
  | cons bb rest ih =>
    intro st
    rw [List.foldl_cons]
    rcases hp : _process_offer_CONTENT md5hex fetchEnv geoEnv st.cache bb timestamp
      with ⟨op, c2⟩
    cases op with
    | none =>
      rw [passStep_eq_none hp, passOutcomes_cons_none hp]
      exact ih { st with cache := c2 }
    | some o =>
      rw [passStep_eq_some hp, passOutcomes_cons_some hp]
      have h2 := ih
        { processed := st.processed + 1,
          new_offers := st.new_offers + (if (save_offer st.db o).2 = .new then 1 else 0),
          updated_offers :=
            st.updated_offers + (if (save_offer st.db o).2 = .updated then 1 else 0),
          unchanged_offers :=
            st.unchanged_offers + (if (save_offer st.db o).2 = .unchanged then 1 else 0),
          active_ids := st.active_ids ++ [o.offer_id],
          db := (save_offer st.db o).1, cache := c2 }
      refine ⟨?_, ?_, ?_⟩
      · rw [h2.1]
        simp
        omega
      · rw [h2.2.1]
        rcases h3 : (save_offer st.db o).2 <;> simp [List.count_cons, h3] <;> omega
      · rw [h2.2.2]
        rcases h3 : (save_offer st.db o).2 <;> simp [List.count_cons, h3] <;> omega

/-! ## Claim theorems: the monitoring pass (C8, C9, C10) -/

/-- C8 counterexample: the statistics record that `run_monitoring` returns
and persists has no `unchanged_offers` entry (the unchanged tally is kept
in the loop-local dict but dropped from `final_stats` and from the
`monitoring_stats` table), so the claim that the persisted pass statistics
contain the unchanged count is false already for the empty pass. -/
theorem run_monitoring_C8_counterexample :
    (run_monitoring id fetchErrW envErrW [] [] "t" []).stats =
      mkFinalStats 0 0 0 0 0 0 ∧
    (run_monitoring id fetchErrW envErrW [] [] "t" []).stats.lookup "unchanged_offers" =
      none := by
  exact ⟨by decide, by decide⟩

/-- C8 (amended): the statistics record returned and persisted by one pass
consists of exactly the six entries total_found, with_addresses,
new_offers, updated_offers, active_offers and inactive_offers — the counts
of scraped offers, successfully processed offers, `new` and `updated`
save outcomes, and currently active/inactive stored rows with coordinates —
with no unchanged_offers entry; in the three-offer scenario where two
offers resolve and one does not, total_found is 3 and with_addresses
is 2. -/
theorem run_monitoring_C8_amended :
    (∀ (md5hex : String → String) (fetchEnv : FetchEnv) (geoEnv : GeoEnv)
        (cache0 : GeoCache) (db0 : List RoomOffer) (timestamp : String)
        (all_offers : List BasicOffer),
      (run_monitoring md5hex fetchEnv geoEnv cache0 db0 timestamp all_offers).stats =
        mkFinalStats all_offers.length
          (passOutcomes md5hex fetchEnv geoEnv timestamp all_offers cache0 db0).length
          ((passOutcomes md5hex fetchEnv geoEnv timestamp all_offers cache0 db0).count .new)
          ((passOutcomes md5hex fetchEnv geoEnv timestamp all_offers cache0 db0).count
            .updated)
          ((get_all_offers
              (run_monitoring md5hex fetchEnv geoEnv cache0 db0 timestamp all_offers).db).filter
            (fun o => o.is_active)).length
          ((get_all_offers
              (run_monitoring md5hex fetchEnv geoEnv cache0 db0 timestamp all_offers).db).length -
            ((get_all_offers
                (run_monitoring md5hex fetchEnv geoEnv cache0 db0 timestamp
                  all_offers).db).filter (fun o => o.is_active)).length) ∧
      (run_monitoring md5hex fetchEnv geoEnv cache0 db0 timestamp
          all_offers).stats.lookup "unchanged_offers" = none) ∧
    ((run_monitoring id fetchThreeW envOkW [] [] "ts" offersThreeW).stats.lookup
        "total_found" = some 3 ∧
     (run_monitoring id fetchThreeW envOkW [] [] "ts" offersThreeW).stats.lookup
        "with_addresses" = some 2) := by
  refine ⟨?_, by decide, by decide⟩
  intro md5hex fetchEnv geoEnv cache0 db0 timestamp all_offers
  have hb := foldl_passStep_outcomes md5hex fetchEnv geoEnv timestamp all_offers
    { processed := 0, new_offers := 0, updated_offers := 0, unchanged_offers := 0,
      active_ids := [], db := db0, cache := cache0 }
  constructor
  · simp only [run_monitoring, mkFinalStats]
    rw [hb.1, hb.2.1, hb.2.2]
    simp
  · simp [run_monitoring, mkFinalStats, List.lookup]

/-- C9: a raw offer whose processing always fails (any per-offer exception
is caught and surfaces as a `none` result with the cache untouched)
does not abort the pass: the pass over `pre ++ [b] ++ post` produces the
same final database (so `mark_inactive_offers` still ran over the same
active-id set), the same geocoder cache, and the same statistics as the
pass without `b`, except that total_found counts the failed offer. -/
theorem run_monitoring_C9 (md5hex : String → String) (fetchEnv : FetchEnv)
    (geoEnv : GeoEnv) (cache0 : GeoCache) (db0 : List RoomOffer) (timestamp : String)
    (pre post : List BasicOffer) (b : BasicOffer)
    (hfail : ∀ cache, _process_offer_CONTENT md5hex fetchEnv geoEnv cache b timestamp =
      (none, cache)) :
    (run_monitoring md5hex fetchEnv geoEnv cache0 db0 timestamp (pre ++ b :: post)).db =
      (run_monitoring md5hex fetchEnv geoEnv cache0 db0 timestamp (pre ++ post)).db ∧
    (run_monitoring md5hex fetchEnv geoEnv cache0 db0 timestamp (pre ++ b :: post)).cache =
      (run_monitoring md5hex fetchEnv geoEnv cache0 db0 timestamp (pre ++ post)).cache ∧
    (run_monitoring md5hex fetchEnv geoEnv cache0 db0 timestamp
        (pre ++ b :: post)).stats.lookup "total_found" =
      some ((pre ++ post).length + 1) ∧
    (∀ k2, k2 ≠ "total_found" →
      (run_monitoring md5hex fetchEnv geoEnv cache0 db0 timestamp
          (pre ++ b :: post)).stats.lookup k2 =
        (run_monitoring md5hex fetchEnv geoEnv cache0 db0 timestamp
            (pre ++ post)).stats.lookup k2) := by
  have hstep : ∀ st, passStep md5hex fetchEnv geoEnv timestamp st b = st := by
    intro st
    rw [passStep_eq_none (hfail st.cache)]
  have hfold : ∀ init : PassState,
      (pre ++ b :: post).foldl (passStep md5hex fetchEnv geoEnv timestamp) init =
        (pre ++ post).foldl (passStep md5hex fetchEnv geoEnv timestamp) init := by
    intro init
    rw [List.foldl_append, List.foldl_append, List.foldl_cons, hstep]
  simp only [run_monitoring]
  rw [hfold]
  refine ⟨rfl, rfl, ?_, ?_⟩
  · simp [mkFinalStats, List.lookup, List.length_append]
    omega
  · intro k2 hk2
    have hbk : (k2 == "total_found") = false := beq_eq_false_iff_ne.mpr hk2
    simp [mkFinalStats, List.lookup, hbk]

/-- Witness for C9: a pass over one offer whose fetch raises yields the
same (empty) database as the empty pass while still counting the offer in
total_found. -/
theorem run_monitoring_C9_witness :
    (run_monitoring id fetchErrW envErrW [] [] "t" [basicErrW]).db =
      (run_monitoring id fetchErrW envErrW [] [] "t" []).db ∧
    (run_monitoring id fetchErrW envErrW [] [] "t" [basicErrW]).stats.lookup
      "total_found" = some 1 := by
  have h := run_monitoring_C9 id fetchErrW envErrW [] [] "t" [] [] basicErrW
    (fun _ => rfl)
  exact ⟨h.1, h.2.2.1⟩

/-- C10: when the fetched page carries a description longer than 2000
characters and processing succeeds, the built offer stores the description
truncated to its first 2000 characters while its hash is the digest of the
full untruncated title+price+description; hence (for a collision-free
digest) the stored hash differs from the digest of the stored record's own
title, price and description. -/
theorem process_offer_C10 (md5hex : String → String) (fetchEnv : FetchEnv)
    (geoEnv : GeoEnv) (cache : GeoCache) (basic : BasicOffer) (timestamp : String)
    (page : Page) (d : String) (o : RoomOffer) (cache2 : GeoCache)
    (hinj : Function.Injective md5hex)
    (hfetch : fetchEnv basic.url = .ok page)
    (hdesc : page.description = some d)
    (hlen : 2000 < d.length)
    (hproc : _process_offer_CONTENT md5hex fetchEnv geoEnv cache basic timestamp =
      (some o, cache2)) :
    o.description = pyTake 2000 d ∧
    o.hash = md5hex (o.title ++ o.price ++ d) ∧
    o.hash ≠ md5hex (o.title ++ o.price ++ o.description) := by
  have hdne : d ≠ "" := by
    intro he
    rw [he] at hlen
    simp at hlen
  have hbe : (d == "") = false := beq_eq_false_iff_ne.mpr hdne
  simp only [_process_offer_CONTENT, hfetch, hdesc] at hproc
  split at hproc
  · simp at hproc
  · split at hproc
    · simp at hproc
    · next info p gc gn hG =>
      simp at hproc
      obtain ⟨ho, _⟩ := hproc
      subst ho
      refine ⟨?_, ?_, ?_⟩
      · simp [storedDescription, hbe]
      · simp [pyStrOpt]
      · intro heq
        simp only [pyStrOpt, storedDescription, hbe, if_neg] at heq
        have h2 := hinj heq
        have h3 := congrArg String.data h2
        simp only [String.data_append] at h3
        have h4 := List.append_cancel_left h3
        have h5 : d.data.length = 2000 := by
          have h6 := congrArg List.length h4
          simp [pyTake, List.length_take] at h6
          omega
        have h7 : d.length = d.data.length := rfl
        omega

/-- Witness for C10: with the identity digest and a 2001-character
description, the stored description is the 2000-character truncation and
the stored hash differs from the digest of the stored fields. -/
theorem longDescW_length : longDescW.length = 2001 := by
  show (List.replicate 2001 'x').length = 2001
  exact List.length_replicate _ _

set_option maxRecDepth 4000 in
theorem process_offer_C10_witness :
    offerLongW.description = pyTake 2000 longDescW ∧
    offerLongW.hash ≠ id (offerLongW.title ++ offerLongW.price ++ offerLongW.description) := by
  have h := process_offer_C10 id fetchLongW envOkW [] basicLongW "ts" pageLongW
    longDescW offerLongW cacheLongW (fun _ _ hab => hab) rfl rfl
    (by rw [longDescW_length]; omega)
    rfl
  exact ⟨h.1, h.2.2⟩
